import Mathlib

/-!
Verification of the SariStorePOS inventory backend
(src/backend/inventory: models.py, views.py, serializers.py).

Shallow embedding notes.

Money and quantities are Python `Decimal` values in the source.  On every
operation the embedded code performs — addition, subtraction, multiplication,
`min`/`max`, comparison, and division of a unit cost by a units-per-pack
integer that is at least 2 — `Decimal` arithmetic at the precision the
repository uses is exact rational arithmetic, so these values are embedded
as `Rat`.

The database is a `State` record of lists.  Rows keep their model field
names.  Columns that no modelled operation reads or writes (barcode,
category, image, timestamps, min_stock_level, unit_type on products,
due_date on sales, terminal_id and start/end timestamps on shifts, the
audit log) are omitted.  `sales` is kept in creation order, which is the
`date_created` ascending order the views rely on, because every modelled
operation appends new sales at the end.

Django and DRF behaviour that decides control flow is embedded from the
framework semantics of the exact code in the repository:

* `SaleSerializer` (serializers.py:66-76) declares `idempotency_key` as a
  read-only field, so the value the view puts into `sale_data`
  (views.py:276) is dropped from `validated_data` and the saved row keeps
  the model default, NULL.

* `PaymentViewSet.create` (views.py:444) calls
  `serializer.save(shift=active_shift)`.  The `Payment` model
  (models.py:424-441) defines no `shift` field, so
  `Payment.objects.create(**validated_data, shift=...)` makes Django
  `Model.__init__` raise `TypeError: Payment() got unexpected keyword
  arguments: shift` before any row is written; the generic `except` in the
  view (views.py:505-506) returns HTTP 500 and the transaction commits
  nothing.  Every payment request therefore fails with no state change.
  The post-save logic of the view (views.py:446-503) is still embedded, as
  `applyPaymentCore`, parameterised by the `Payment` row that
  `serializer.save` would have produced, so that the intended behaviour can
  be compared with the claims.

* Serializer field validation that only gates success and touches no claim
  (choice validation of payment_method is enforced by the embedded types;
  the 2-decimal-place check of `DecimalField`; the float-bounded
  `MinValueValidator(0.01)` on payment amounts, embedded as positivity) is
  reduced to the checks named at each definition.
-/

namespace SariPOS

/-- PAYMENT_METHODS choices of the Sale model (models.py:186-191). -/
inductive PaymentMethod
  | cash
  | card
  | mobile
  | utang
deriving DecidableEq, Repr

/-- UNIT_TYPES choices (models.py:11-19). -/
inductive UnitType
  | piece
  | kg
  | g
  | liter
  | ml
  | bundle
  | pack
deriving DecidableEq, Repr

/-- STATUS_CHOICES of the Shift model (models.py:367-370). -/
inductive ShiftStatus
  | opened
  | closed
deriving DecidableEq, Repr

/-- Product row (models.py:63-114), restricted to the columns the modelled
operations read or write. -/
structure Product where
  id : Nat
  name : String
  price : Option Rat
  cost_price : Option Rat
  stock_quantity : Rat
deriving DecidableEq, Repr

/-- SaleItem row (models.py:213-241). -/
structure SaleItem where
  product_id : Nat
  quantity : Rat
  unit_price : Rat
deriving DecidableEq, Repr

/-- Sale row (models.py:169-211). -/
structure Sale where
  id : Nat
  customer : Option Nat
  total_amount : Rat
  amount_paid : Rat
  is_fully_paid : Bool
  payment_method : PaymentMethod
  idempotency_key : Option String
  shift : Option Nat
  items : List SaleItem
deriving DecidableEq, Repr

/-- Customer row (models.py:153-167). -/
structure Customer where
  id : Nat
  name : String
  outstanding_balance : Rat
deriving DecidableEq, Repr

/-- Payment row (models.py:424-441).  There is no shift column. -/
structure Payment where
  id : Nat
  customer : Nat
  sale : Option Nat
  amount : Rat
  method : PaymentMethod
  notes : String
deriving DecidableEq, Repr

/-- Shift row (models.py:365-389). -/
structure Shift where
  id : Nat
  user : Nat
  status : ShiftStatus
  opening_cash : Rat
  closing_cash : Option Rat
deriving DecidableEq, Repr

/-- PurchaseItem row (models.py:259-285).  The derived
profit_margin_percent column (models.py:346-353) is read by no claim and no
modelled operation, and is omitted. -/
structure PurchaseItem where
  product_id : Nat
  quantity : Rat
  unit_cost : Rat
  purchase_unit : UnitType
  units_per_pack : Nat
  selling_price : Option Rat
  added_to_stock : Bool
deriving DecidableEq, Repr

/-- The database state.  `sales` is in creation order (`date_created`
ascending); the id counters model the auto-increment primary keys. -/
structure State where
  products : List Product
  customers : List Customer
  sales : List Sale
  payments : List Payment
  shifts : List Shift
  purchase_items : List PurchaseItem
  next_sale_id : Nat
  next_payment_id : Nat
deriving DecidableEq, Repr

/-- Product.objects.get(id=...) over the product table. -/
def findProduct : List Product → Nat → Option Product
  | [], _ => none
  | p :: rest, pid => if p.id = pid then some p else findProduct rest pid

/-- Customer primary-key lookup, as the serializer resolves a customer id. -/
def findCustomer : List Customer → Nat → Option Customer
  | [], _ => none
  | c :: rest, cid => if c.id = cid then some c else findCustomer rest cid

/-- Sale primary-key lookup, as the serializer resolves a sale id. -/
def findSaleById : List Sale → Nat → Option Sale
  | [], _ => none
  | sa :: rest, sid => if sa.id = sid then some sa else findSaleById rest sid

/-- Sale.objects.filter(idempotency_key=key).first() (views.py:217).  The
key column is unique, so taking the first match in table order is the
lookup the view performs. -/
def findSaleByKey : List Sale → String → Option Sale
  | [], _ => none
  | sa :: rest, k => if sa.idempotency_key = some k then some sa else findSaleByKey rest k

/-- Shift.objects.filter(user=..., status=open).first() (views.py:270). -/
def findOpenShift : List Shift → Nat → Option Shift
  | [], _ => none
  | sh :: rest, uid =>
    if sh.user = uid ∧ sh.status = ShiftStatus.opened then some sh
    else findOpenShift rest uid

/-- product.save(): the fetched object is written back whole, replacing the
row with the same primary key.  A later save of a stale object overwrites
the columns written by an earlier save, exactly as in the views, which save
the objects fetched during validation. -/
def saveProduct (ps : List Product) (p : Product) : List Product :=
  ps.map (fun q => if q.id = p.id then p else q)

/-! ## Unit and pricing resolver (models.py:295-324) -/

/-- The per-piece conversion of PurchaseItem.update_product_stock
(models.py:299-324): `is_pack` is `purchase_unit == pack and units_per_pack
and int(units_per_pack) > 1`; in the pack branch pieces are multiplied out
and the per-piece cost is the unit cost divided by units_per_pack, with the
InvalidOperation/ZeroDivisionError fallback to the raw unit cost
(models.py:320-321) kept as the zero-divisor guard, although it is
unreachable when units_per_pack exceeds 1.  Returns (pieces_added,
per_piece_cost). -/
def convertPurchase (purchase_unit : UnitType) (units_per_pack : Nat)
    (quantity unit_cost : Rat) : Rat × Rat :=
  if purchase_unit = UnitType.pack ∧ units_per_pack ≠ 0 ∧ 1 < units_per_pack then
    (quantity * units_per_pack,
      if (units_per_pack : Rat) = 0 then unit_cost else unit_cost / units_per_pack)
  else
    (quantity, unit_cost)

/-- PurchaseItem.update_product_stock (models.py:295-358): adds the
converted piece quantity to the product stock, overwrites cost_price with
the per-piece cost, overwrites price when a selling price is given, and
sets the added_to_stock flag. -/
def updateProductStock (item : PurchaseItem) (prod : Product) :
    PurchaseItem × Product :=
  let conv := convertPurchase item.purchase_unit item.units_per_pack
    item.quantity item.unit_cost
  ({ item with added_to_stock := true },
   { prod with
      stock_quantity := prod.stock_quantity + conv.1,
      cost_price := some conv.2,
      price := match item.selling_price with
        | some sp => some sp
        | none => prod.price })

/-- PurchaseItem.save (models.py:287-293): the stock update runs only when
the row is new and the added_to_stock flag is clear; otherwise saving is a
no-op on the product. -/
def purchaseItemSave (is_new : Bool) (item : PurchaseItem) (prod : Product) :
    PurchaseItem × Product :=
  if is_new ∧ item.added_to_stock = false then updateProductStock item prod
  else (item, prod)

/-! ## Sale creation (views.py:205-332) -/

/-- One element of the `items` array of a createSale request. -/
structure SaleLine where
  product_id : Nat
  quantity : Rat
  unit_price : Rat
deriving DecidableEq, Repr

/-- A createSale request body plus the Idempotency-Key header.
`total_amount` is the client-supplied total: the first serializer
validation (views.py:222-223) requires the field, and the view then
overwrites it with the computed sum (views.py:254), so it never reaches the
stored row. -/
structure SaleRequest where
  idempotency_key : Option String
  customer : Option Nat
  payment_method : PaymentMethod
  items : List SaleLine
  total_amount : Option Rat
deriving DecidableEq, Repr

/-- The error responses of SaleViewSet.create: insufficient stock names the
short product (views.py:236-239); a missing product is the DoesNotExist
handler (views.py:329-330); a missing open shift is the 403
(views.py:271-272); serializer failures surface through the generic
handler (views.py:331-332). -/
inductive SaleError
  | insufficientStock (productName : String)
  | productNotFound
  | noActiveShift
  | validationError
deriving DecidableEq, Repr

/-- Outcome of a createSale call: 201 with a fresh row, 200 with the row an
earlier request with the same idempotency key created, or an error. -/
inductive SaleOutcome
  | created (saleId : Nat)
  | replayed (saleId : Nat)
  | failed (e : SaleError)
deriving DecidableEq, Repr

/-- The serializer check on the customer field of the request
(views.py:222-223): a customer id that resolves to no row fails
validation. -/
def customerInvalid (customers : List Customer) : Option Nat → Bool
  | some cid => (findCustomer customers cid).isNone
  | none => false

/-- The validation loop of SaleViewSet.create (views.py:230-250): per line,
fetch the product, reject when stock_quantity < quantity, and carry the
fetched product object, quantity and unit price forward.  No row is
written in this loop. -/
def validateSaleItems (products : List Product) :
    List SaleLine → Except SaleError (List (Product × Rat × Rat))
  | [] => Except.ok []
  | line :: rest =>
    match findProduct products line.product_id with
    | none => Except.error SaleError.productNotFound
    | some p =>
      if p.stock_quantity < line.quantity then
        Except.error (SaleError.insufficientStock p.name)
      else
        match validateSaleItems products rest with
        | Except.error e => Except.error e
        | Except.ok tl => Except.ok ((p, line.quantity, line.unit_price) :: tl)

/-- The running total of the validation loop (views.py:227,242-243): the
sum of quantity times unit price over the request lines. -/
def saleLinesTotal (lines : List SaleLine) : Rat :=
  (lines.map (fun l => l.quantity * l.unit_price)).sum

/-- The same total read off the validated triples. -/
def validatedTotal (items : List (Product × Rat × Rat)) : Rat :=
  (items.map (fun x => x.2.1 * x.2.2)).sum

/-- The total of a list of persisted sale items, quantity times unit price
per line. -/
def saleItemsTotal (items : List SaleItem) : Rat :=
  (items.map (fun it => it.quantity * it.unit_price)).sum

/-- The stock-decrement loop (views.py:284-295): each iteration writes the
product object fetched during validation after subtracting the line
quantity from the stock that object carried at fetch time, so for repeated
products the last stale write wins, exactly as the saved objects do. -/
def applySaleStock : List Product → List (Product × Rat × Rat) → List Product
  | ps, [] => ps
  | ps, x :: rest =>
    applySaleStock
      (saveProduct ps { x.1 with stock_quantity := x.1.stock_quantity - x.2.1 }) rest

/-- The utang balance update (views.py:298-302): the customer named on the
sale has the computed total added to outstanding_balance. -/
def creditCustomerUtang (cs : List Customer) (cid : Nat) (total : Rat) :
    List Customer :=
  cs.map (fun c =>
    if c.id = cid then { c with outstanding_balance := c.outstanding_balance + total }
    else c)

/-- SaleViewSet.create after the idempotency lookup (views.py:221-327):
serializer validation, the per-line stock check, the open-shift
requirement, then the atomic write of the sale row, its items, the stock
decrements and the utang balance.  Every failure leaves the state
unchanged, since no write precedes the last check.  The saved row has
idempotency_key NULL because the serializer field is read-only
(serializers.py:71). -/
def createSaleFresh (s : State) (userId : Nat) (req : SaleRequest) :
    SaleOutcome × State :=
  if customerInvalid s.customers req.customer then
    (SaleOutcome.failed SaleError.validationError, s)
  else if req.total_amount.isNone then
    (SaleOutcome.failed SaleError.validationError, s)
  else
    match validateSaleItems s.products req.items with
    | Except.error e => (SaleOutcome.failed e, s)
    | Except.ok items =>
      let total := validatedTotal items
      match findOpenShift s.shifts userId with
      | none => (SaleOutcome.failed SaleError.noActiveShift, s)
      | some sh =>
        let sale : Sale := {
          id := s.next_sale_id,
          customer := req.customer,
          total_amount := total,
          amount_paid := if req.payment_method = PaymentMethod.utang then 0 else total,
          is_fully_paid := if req.payment_method = PaymentMethod.utang then false else true,
          payment_method := req.payment_method,
          idempotency_key := none,
          shift := some sh.id,
          items := items.map (fun x => { product_id := x.1.id, quantity := x.2.1, unit_price := x.2.2 }) }
        let customers :=
          if req.payment_method = PaymentMethod.utang then
            match req.customer with
            | some cid => creditCustomerUtang s.customers cid total
            | none => s.customers
          else s.customers
        (SaleOutcome.created sale.id,
          { s with
              products := applySaleStock s.products items,
              customers := customers,
              sales := s.sales ++ [sale],
              next_sale_id := s.next_sale_id + 1 })

/-- SaleViewSet.create (views.py:205-332).  The idempotency lookup
(views.py:216-219) runs before any validation: when a sale with the
submitted key exists it is returned unchanged with HTTP 200 and nothing
else runs. -/
def createSale (s : State) (userId : Nat) (req : SaleRequest) :
    SaleOutcome × State :=
  match req.idempotency_key with
  | some k =>
    match findSaleByKey s.sales k with
    | some existing => (SaleOutcome.replayed existing.id, s)
    | none => createSaleFresh s userId req
  | none => createSaleFresh s userId req

/-! ## Purchase creation (views.py:334-387) -/

/-- One element of the `items` array of a createPurchase request.  The view
reads only product_id, quantity and unit_cost (views.py:349-352); a
purchase_unit or units_per_pack in the payload is never passed on, so the
created rows keep the model defaults piece and 1. -/
structure PurchaseLine where
  product_id : Nat
  quantity : Rat
  unit_cost : Rat
deriving DecidableEq, Repr

/-- Outcome of a createPurchase call. -/
inductive PurchaseOutcome
  | created
  | failed
deriving DecidableEq, Repr

/-- The costing loop of PurchaseViewSet.create (views.py:349-360): fetch
each product and carry the object, quantity and unit cost forward; a
missing product aborts with no write. -/
def validatePurchaseLines (products : List Product) :
    List PurchaseLine → Option (List (Product × Rat × Rat))
  | [] => some []
  | line :: rest =>
    match findProduct products line.product_id with
    | none => none
    | some p =>
      match validatePurchaseLines products rest with
      | none => none
      | some tl => some ((p, line.quantity, line.unit_cost) :: tl)

/-- One iteration of the write loop of PurchaseViewSet.create
(views.py:370-382).  `PurchaseItem.objects.create` runs the overridden
save, which applies the stock update once through the idempotency flag
path (models.py:287-293) on the very product object the view fetched; the
view then adds the quantity to the same in-memory object again and
overwrites cost_price with the raw unit cost (views.py:379-382) before
saving it.  The row write at the end carries the final object state, the
earlier save inside update_product_stock being overwritten by it. -/
def purchaseEndpointLine (acc : List Product × List PurchaseItem)
    (x : Product × Rat × Rat) : List Product × List PurchaseItem :=
  let item : PurchaseItem := {
    product_id := x.1.id, quantity := x.2.1, unit_cost := x.2.2,
    purchase_unit := UnitType.piece, units_per_pack := 1,
    selling_price := none, added_to_stock := false }
  let saved := purchaseItemSave true item x.1
  let prod := { saved.2 with
    stock_quantity := saved.2.stock_quantity + x.2.1,
    cost_price := some x.2.2 }
  (saveProduct acc.1 prod, acc.2 ++ [saved.1])

/-- The write loop of PurchaseViewSet.create over the validated lines. -/
def runPurchaseLines : List Product × List PurchaseItem →
    List (Product × Rat × Rat) → List Product × List PurchaseItem
  | acc, [] => acc
  | acc, x :: rest => runPurchaseLines (purchaseEndpointLine acc x) rest

/-- PurchaseViewSet.create (views.py:338-387). -/
def createPurchase (s : State) (lines : List PurchaseLine) :
    PurchaseOutcome × State :=
  match validatePurchaseLines s.products lines with
  | none => (PurchaseOutcome.failed, s)
  | some items =>
    let r := runPurchaseLines (s.products, []) items
    (PurchaseOutcome.created,
      { s with products := r.1, purchase_items := s.purchase_items ++ r.2 })

/-! ## Payment creation (views.py:428-506) -/

/-- A createPayment request body. -/
structure PaymentRequest where
  customer : Nat
  sale : Option Nat
  amount : Rat
  method : PaymentMethod
  notes : String
deriving DecidableEq, Repr

/-- Outcome of a createPayment call. -/
inductive PaymentOutcome
  | created
  | failed
deriving DecidableEq, Repr

/-- The serializer check on the optional sale field of a payment request. -/
def saleRefInvalid (sales : List Sale) : Option Nat → Bool
  | some sid => (findSaleById sales sid).isNone
  | none => false

/-- PaymentViewSet.create (views.py:432-506).  Validation resolves the
customer and the optional sale and requires a positive amount (the model
MinValueValidator).  The save itself then always fails:
`serializer.save(shift=active_shift)` (views.py:444) forwards a `shift`
keyword to `Payment.objects.create`, the Payment model has no such field,
Django raises TypeError before any row is written, and the generic handler
returns HTTP 500 with the transaction committing nothing.  Every payment
request therefore returns an error and leaves the state unchanged. -/
def createPayment (s : State) (req : PaymentRequest) : PaymentOutcome × State :=
  if (findCustomer s.customers req.customer).isNone then (PaymentOutcome.failed, s)
  else if saleRefInvalid s.sales req.sale then (PaymentOutcome.failed, s)
  else if req.amount ≤ 0 then (PaymentOutcome.failed, s)
  else (PaymentOutcome.failed, s)

/-- The customer balance update (views.py:447-451): subtract the payment
amount and floor the result at zero. -/
def applyCustomerBalance (cs : List Customer) (cid : Nat) (amount : Rat) :
    List Customer :=
  cs.map (fun c =>
    if c.id = cid then
      { c with outstanding_balance :=
          if c.outstanding_balance - amount < 0 then 0
          else c.outstanding_balance - amount }
    else c)

/-- The sale-linked update (views.py:454-459): add the full payment amount
to amount_paid, with no clamp, and set is_fully_paid once amount_paid
reaches total_amount. -/
def applyLinkedSale (sales : List Sale) (sid : Nat) (amount : Rat) :
    List Sale :=
  sales.map (fun sa =>
    if sa.id = sid then
      { sa with
          amount_paid := sa.amount_paid + amount,
          is_fully_paid :=
            if sa.total_amount ≤ sa.amount_paid + amount then true
            else sa.is_fully_paid }
    else sa)

/-- The audit note of a split payment record (views.py:495): From payment
#id, with the original notes appended after a colon when present. -/
def paymentRefNote (origId : Nat) (origNotes : String) : String :=
  "From payment #" ++ toString origId ++
    (if origNotes = "" then "" else ": " ++ origNotes)

/-- The allocation loop of PaymentViewSet.create (views.py:461-502): walk
the sales table in creation order; the rows of the queryset are the
customer sales with payment_method utang and is_fully_paid false; stop
allocating once the remaining amount is spent; per row with positive
outstanding, allocate min(remaining, outstanding), update amount_paid and
is_fully_paid, and create a linked Payment row carrying the allocated
amount and the back-reference note.  Returns the updated sales list, the
created payment rows in order, and the next payment id. -/
def distributePayment (pay : Payment) (nextId : Nat) (remaining : Rat) :
    List Sale → List Sale × List Payment × Nat
  | [] => ([], [], nextId)
  | sa :: rest =>
    if sa.customer = some pay.customer ∧ sa.payment_method = PaymentMethod.utang ∧
        sa.is_fully_paid = false then
      if remaining ≤ 0 then (sa :: rest, [], nextId)
      else
        if 0 < sa.total_amount - sa.amount_paid then
          let toApply := min remaining (sa.total_amount - sa.amount_paid)
          let updated : Sale := { sa with
            amount_paid := sa.amount_paid + toApply,
            is_fully_paid :=
              if sa.total_amount ≤ sa.amount_paid + toApply then true
              else sa.is_fully_paid }
          let created : Payment := {
            id := nextId, customer := pay.customer, sale := some sa.id,
            amount := toApply, method := pay.method,
            notes := paymentRefNote pay.id pay.notes }
          let r := distributePayment pay (nextId + 1) (remaining - toApply) rest
          (updated :: r.1, created :: r.2.1, r.2.2)
        else
          let r := distributePayment pay nextId remaining rest
          (sa :: r.1, r.2.1, r.2.2)
    else
      let r := distributePayment pay nextId remaining rest
      (sa :: r.1, r.2.1, r.2.2)

/-- The post-save body of PaymentViewSet.create (views.py:446-503),
parameterised by the Payment row `pay` that `serializer.save` would have
produced: apply the payment to the customer balance, then either update
the linked sale or distribute across the open utang sales, keeping the
original row itself unmodified.  In the repository this code is
unreachable, because the save above it always raises; it is embedded to
compare the claims with the intended behaviour. -/
def applyPaymentCore (s : State) (pay : Payment) : State :=
  let customers := applyCustomerBalance s.customers pay.customer pay.amount
  match pay.sale with
  | some sid =>
    { s with
        customers := customers,
        sales := applyLinkedSale s.sales sid pay.amount,
        payments := s.payments ++ [pay] }
  | none =>
    let r := distributePayment pay s.next_payment_id pay.amount s.sales
    { s with
        customers := customers,
        sales := r.1,
        payments := (s.payments ++ [pay]) ++ r.2.1,
        next_payment_id := r.2.2 }

/-! ## Shift reconciliation (models.py:365-421, views.py:1216-1300) -/

/-- The related manager self.sales of a shift: the sales whose shift
foreign key names it, in table order. -/
def shiftSales (shiftId : Nat) : List Sale → List Sale
  | [] => []
  | sa :: rest =>
    if sa.shift = some shiftId then sa :: shiftSales shiftId rest
    else shiftSales shiftId rest

/-- The payment_method=cash filter over a list of sales. -/
def cashOnly : List Sale → List Sale
  | [] => []
  | sa :: rest =>
    if sa.payment_method = PaymentMethod.cash then sa :: cashOnly rest
    else cashOnly rest

/-- Sum of total_amount over a list of sales, 0 when empty, as the
aggregate with the `or Decimal(0.00)` default computes it. -/
def salesTotal : List Sale → Rat
  | [] => 0
  | sa :: rest => sa.total_amount + salesTotal rest

/-- Shift.expected_cash (models.py:403-414): the opening cash when the
shift has no sales at all, otherwise opening cash plus the cash-sales
total. -/
def Shift.expected_cash (sh : Shift) (sales : List Sale) : Rat :=
  if shiftSales sh.id sales = [] then sh.opening_cash
  else sh.opening_cash + salesTotal (cashOnly (shiftSales sh.id sales))

/-- Shift.cash_difference (models.py:416-421): None until closing_cash is
set, then closing cash minus expected cash. -/
def Shift.cash_difference (sh : Shift) (sales : List Sale) : Option Rat :=
  match sh.closing_cash with
  | none => none
  | some c => some (c - sh.expected_cash sales)

/-- start_shift (views.py:1216-1236): a fresh shift opens with the given
opening cash, status open and no closing cash. -/
def startShift (id userId : Nat) (opening : Rat) : Shift :=
  { id := id, user := userId, status := ShiftStatus.opened,
    opening_cash := opening, closing_cash := none }

/-- end_shift (views.py:1260-1285): closing cash is recorded and the shift
is closed. -/
def endShift (sh : Shift) (closing : Rat) : Shift :=
  { sh with status := ShiftStatus.closed, closing_cash := some closing }

/-! ## Operation sequences -/

/-- One request against the endpoints that can touch stock or balances. -/
inductive Op
  | sale (userId : Nat) (req : SaleRequest)
  | purchase (lines : List PurchaseLine)
  | payment (req : PaymentRequest)
deriving DecidableEq, Repr

/-- The state after one request. -/
def applyOp (s : State) : Op → State
  | Op.sale u r => (createSale s u r).2
  | Op.purchase ls => (createPurchase s ls).2
  | Op.payment r => (createPayment s r).2

/-- The state after a sequence of requests. -/
def applyOps (s : State) (ops : List Op) : State := ops.foldl applyOp s

/-- Every product row carries a non-negative stock. -/
def StockNonneg (s : State) : Prop := ∀ p ∈ s.products, 0 ≤ p.stock_quantity

/-- Validity of an operation: purchase lines carry non-negative
quantities, the well-formedness the PurchaseItem model declares with
MinValueValidator(0.001) on the quantity column. -/
def OpValid : Op → Prop
  | Op.purchase lines => ∀ l ∈ lines, 0 ≤ l.quantity
  | _ => True

/-! ## Concrete scenarios used by the claim theorems -/

/-- Stock scenario: one product with 5 units and an open shift for user 7. -/
def c1SeqState : State :=
  { products := [⟨1, "Rice", some 2, none, 5⟩], customers := [], sales := [],
    payments := [], shifts := [⟨1, 7, ShiftStatus.opened, 0, none⟩],
    purchase_items := [], next_sale_id := 1, next_payment_id := 1 }

/-- A purchase of 2 units followed by a sale of 4 units. -/
def c1SeqOps : List Op :=
  [Op.purchase [⟨1, 2, 3⟩],
   Op.sale 7 { idempotency_key := none, customer := none,
               payment_method := PaymentMethod.cash,
               items := [⟨1, 4, 2⟩], total_amount := some 8 }]

/-- Rejection scenario: 3 units in stock. -/
def c1RejState : State :=
  { products := [⟨2, "Egg", some 7, none, 3⟩], customers := [], sales := [],
    payments := [], shifts := [], purchase_items := [],
    next_sale_id := 1, next_payment_id := 1 }

/-- A sale request for 10 units of the product with 3 in stock. -/
def c1RejReq : SaleRequest :=
  { idempotency_key := none, customer := none,
    payment_method := PaymentMethod.cash,
    items := [⟨2, 10, 7⟩], total_amount := some 70 }

/-- Allocation scenario of the claim: customer 1 with balance 100 and
three open utang sales, oldest first, with outstanding 50, 30, 20. -/
def c2State : State :=
  { products := [], customers := [⟨1, "Maria", 100⟩],
    sales := [⟨1, some 1, 50, 0, false, PaymentMethod.utang, none, none, []⟩,
              ⟨2, some 1, 30, 0, false, PaymentMethod.utang, none, none, []⟩,
              ⟨3, some 1, 20, 0, false, PaymentMethod.utang, none, none, []⟩],
    payments := [], shifts := [], purchase_items := [],
    next_sale_id := 4, next_payment_id := 11 }

/-- An unlinked payment request of 70 for customer 1. -/
def c2Req : PaymentRequest :=
  { customer := 1, sale := none, amount := 70,
    method := PaymentMethod.cash, notes := "" }

/-- The Payment row the save would have produced for `c2Req`. -/
def c2Pay : Payment :=
  { id := 10, customer := 1, sale := none, amount := 70,
    method := PaymentMethod.cash, notes := "" }

/-- Purchase scenario: a product with zero stock. -/
def c3State : State :=
  { products := [⟨4, "Sardinas", none, none, 0⟩], customers := [], sales := [],
    payments := [], shifts := [], purchase_items := [],
    next_sale_id := 1, next_payment_id := 1 }

/-- An already-applied purchase line and its product, for the re-save
no-op part of the claim. -/
def c3FlaggedItem : PurchaseItem :=
  { product_id := 4, quantity := 5, unit_cost := 7,
    purchase_unit := UnitType.piece, units_per_pack := 1,
    selling_price := none, added_to_stock := true }

/-- The product the flagged line points at. -/
def c3Prod : Product := ⟨4, "Sardinas", none, none, 5⟩

/-- Idempotency scenario of the repository test: product with 10 in
stock, an open shift for user 7, and a keyed sale request. -/
def c4State : State :=
  { products := [⟨1, "Test Product", some 100, none, 10⟩], customers := [],
    sales := [], payments := [],
    shifts := [⟨1, 7, ShiftStatus.opened, 0, none⟩], purchase_items := [],
    next_sale_id := 1, next_payment_id := 1 }

/-- The keyed request, submitted twice with the identical payload. -/
def c4Req : SaleRequest :=
  { idempotency_key := some "test-idemp-123", customer := none,
    payment_method := PaymentMethod.cash,
    items := [⟨1, 1, 100⟩], total_amount := some 100 }

/-- The state after the first submission of `c4Req`: one sale with key
NULL, stock decremented to 9. -/
def c4Mid : State :=
  { products := [⟨1, "Test Product", some 100, none, 9⟩], customers := [],
    sales := [⟨1, none, 100, 100, true, PaymentMethod.cash, none, some 1, [⟨1, 1, 100⟩]⟩],
    payments := [],
    shifts := [⟨1, 7, ShiftStatus.opened, 0, none⟩], purchase_items := [],
    next_sale_id := 2, next_payment_id := 1 }

/-- The state after the second submission of `c4Req`: a second sale, key
NULL again, stock decremented again. -/
def c4End : State :=
  { products := [⟨1, "Test Product", some 100, none, 8⟩], customers := [],
    sales := [⟨1, none, 100, 100, true, PaymentMethod.cash, none, some 1, [⟨1, 1, 100⟩]⟩,
              ⟨2, none, 100, 100, true, PaymentMethod.cash, none, some 1, [⟨1, 1, 100⟩]⟩],
    payments := [],
    shifts := [⟨1, 7, ShiftStatus.opened, 0, none⟩], purchase_items := [],
    next_sale_id := 3, next_payment_id := 1 }

/-- Total-amount scenario: one product, an open shift for user 3. -/
def c5State : State :=
  { products := [⟨5, "Choc", some 4, none, 50⟩], customers := [], sales := [],
    payments := [], shifts := [⟨2, 3, ShiftStatus.opened, 0, none⟩],
    purchase_items := [], next_sale_id := 1, next_payment_id := 1 }

/-- A request for 2 units at 4 each whose client-supplied total is a wrong
999. -/
def c5Req : SaleRequest :=
  { idempotency_key := none, customer := none,
    payment_method := PaymentMethod.cash,
    items := [⟨5, 2, 4⟩], total_amount := some 999 }

/-- The state `createSale c5State 3 c5Req` produces: stock 48, one sale of
total 8. -/
def c5Expected : State :=
  { products := [⟨5, "Choc", some 4, none, 48⟩], customers := [],
    sales := [⟨1, none, 8, 8, true, PaymentMethod.cash, none, some 2, [⟨5, 2, 4⟩]⟩],
    payments := [], shifts := [⟨2, 3, ShiftStatus.opened, 0, none⟩],
    purchase_items := [], next_sale_id := 2, next_payment_id := 1 }

/-- Overpayment scenario: a sale of 50 with nothing paid. -/
def c6State : State :=
  { products := [], customers := [⟨3, "Ana", 0⟩],
    sales := [⟨9, some 3, 50, 0, false, PaymentMethod.utang, none, none, []⟩],
    payments := [], shifts := [], purchase_items := [],
    next_sale_id := 10, next_payment_id := 1 }

/-- A payment of 100 linked to the sale of 50. -/
def c6Req : PaymentRequest :=
  { customer := 3, sale := some 9, amount := 100,
    method := PaymentMethod.cash, notes := "" }

/-- The Payment row the save would have produced for `c6Req`. -/
def c6Pay : Payment :=
  { id := 1, customer := 3, sale := some 9, amount := 100,
    method := PaymentMethod.cash, notes := "" }

/-- Balance scenario: customer 2 owes 50. -/
def c7State : State :=
  { products := [], customers := [⟨2, "Juan", 50⟩], sales := [],
    payments := [], shifts := [], purchase_items := [],
    next_sale_id := 1, next_payment_id := 1 }

/-- A payment request of 20 for customer 2. -/
def c7Req : PaymentRequest :=
  { customer := 2, sale := none, amount := 20,
    method := PaymentMethod.cash, notes := "" }

/-- The Payment row the save would have produced for `c7Req`. -/
def c7Pay : Payment :=
  { id := 1, customer := 2, sale := none, amount := 20,
    method := PaymentMethod.cash, notes := "" }

/-- An overpaying Payment row of 80 against the balance of 50. -/
def c7PayBig : Payment :=
  { id := 1, customer := 2, sale := none, amount := 80,
    method := PaymentMethod.cash, notes := "" }

/-- Shift scenario of the claim: opening cash 1000. -/
def c9Shift : Shift := ⟨1, 7, ShiftStatus.opened, 1000, none⟩

/-- A second open shift, for the witness. -/
def c9ShiftB : Shift := ⟨3, 8, ShiftStatus.opened, 500, none⟩

/-- Cash sales of 200, 150, 50 in shift 1, plus a utang sale in shift 1
and a cash sale of another shift, both of which the cash total must
ignore. -/
def c9Sales : List Sale :=
  [⟨1, none, 200, 200, true, PaymentMethod.cash, none, some 1, []⟩,
   ⟨2, none, 150, 150, true, PaymentMethod.cash, none, some 1, []⟩,
   ⟨3, none, 50, 50, true, PaymentMethod.cash, none, some 1, []⟩,
   ⟨4, some 1, 75, 0, false, PaymentMethod.utang, none, some 1, []⟩,
   ⟨5, none, 60, 60, true, PaymentMethod.cash, none, some 2, []⟩]

/-- Replay scenario: a sale with idempotency key already in the table. -/
def c10Sale : Sale :=
  ⟨42, none, 10, 10, true, PaymentMethod.cash, some "replay-key", none, []⟩

/-- The state holding the keyed sale and nothing else, not even a shift. -/
def c10State : State :=
  { products := [], customers := [], sales := [c10Sale], payments := [],
    shifts := [], purchase_items := [], next_sale_id := 43, next_payment_id := 1 }

/-- A replayed request whose payload is invalid in every way: unknown
product, huge quantity, unknown customer, missing client total, and no
open shift exists. -/
def c10Req : SaleRequest :=
  { idempotency_key := some "replay-key", customer := some 999,
    payment_method := PaymentMethod.utang,
    items := [⟨77, 100000, 1⟩], total_amount := none }

/-! ## Helper lemmas -/

/-- A product the lookup returns is a row of the table. -/
theorem findProduct_mem {ps : List Product} {pid : Nat} {p : Product}
    (h : findProduct ps pid = some p) : p ∈ ps := by
  induction ps with
  | nil => simp [findProduct] at h
  | cons q rest ih =>
    simp only [findProduct] at h
    split at h
    · injection h with h2
      subst h2
      exact List.mem_cons_self _ _
    · exact List.mem_cons_of_mem q (ih h)

/-- A row of the table after a save is the saved object or an untouched
row. -/
theorem saveProduct_mem {ps : List Product} {p q : Product}
    (h : q ∈ saveProduct ps p) : q = p ∨ q ∈ ps := by
  simp only [saveProduct, List.mem_map] at h
  obtain ⟨r, hr, hq⟩ := h
  by_cases hid : r.id = p.id
  · left; rw [if_pos hid] at hq; exact hq.symm
  · right; rw [if_neg hid] at hq; exact hq ▸ hr

/-- Every validated sale line passed the stock check against the fetched
product object. -/
theorem validateSaleItems_ok_sub {ps : List Product} :
    ∀ {lines : List SaleLine} {items : List (Product × Rat × Rat)},
      validateSaleItems ps lines = Except.ok items →
      ∀ x ∈ items, 0 ≤ x.1.stock_quantity - x.2.1 := by
  intro lines
  induction lines with
  | nil =>
    intro items h
    simp only [validateSaleItems] at h
    cases h
    simp
  | cons line rest ih =>
    intro items h
    simp only [validateSaleItems] at h
    cases hf : findProduct ps line.product_id with
    | none => simp only [hf] at h; cases h
    | some p =>
      simp only [hf] at h
      by_cases hlt : p.stock_quantity < line.quantity
      · rw [if_pos hlt] at h; cases h
      · rw [if_neg hlt] at h
        cases hr : validateSaleItems ps rest with
        | error e => simp only [hr] at h; cases h
        | ok tl =>
          simp only [hr] at h
          cases h
          intro x hx
          rcases List.mem_cons.mp hx with hx | hx
          · subst hx
            exact sub_nonneg.mpr (le_of_not_lt hlt)
          · exact ih hr x hx

/-- The validated total is the request-line total. -/
theorem validateSaleItems_ok_total {ps : List Product} :
    ∀ {lines : List SaleLine} {items : List (Product × Rat × Rat)},
      validateSaleItems ps lines = Except.ok items →
      validatedTotal items = saleLinesTotal lines := by
  intro lines
  induction lines with
  | nil =>
    intro items h
    simp only [validateSaleItems] at h
    cases h
    rfl
  | cons line rest ih =>
    intro items h
    simp only [validateSaleItems] at h
    cases hf : findProduct ps line.product_id with
    | none => simp only [hf] at h; cases h
    | some p =>
      simp only [hf] at h
      by_cases hlt : p.stock_quantity < line.quantity
      · rw [if_pos hlt] at h; cases h
      · rw [if_neg hlt] at h
        cases hr : validateSaleItems ps rest with
        | error e => simp only [hr] at h; cases h
        | ok tl =>
          simp only [hr] at h
          cases h
          have ht := ih hr
          simp only [validatedTotal, saleLinesTotal, List.map_cons, List.sum_cons] at ht ⊢
          rw [ht]

/-- The stock-decrement loop writes only values that passed the check, so
non-negative stock is preserved. -/
theorem applySaleStock_nonneg :
    ∀ {items : List (Product × Rat × Rat)} {ps : List Product},
      (∀ p ∈ ps, 0 ≤ p.stock_quantity) →
      (∀ x ∈ items, 0 ≤ x.1.stock_quantity - x.2.1) →
      ∀ p ∈ applySaleStock ps items, 0 ≤ p.stock_quantity := by
  intro items
  induction items with
  | nil =>
    intro ps hps _ p hp
    simp only [applySaleStock] at hp
    exact hps p hp
  | cons x rest ih =>
    intro ps hps hx p hp
    simp only [applySaleStock] at hp
    refine ih ?_ (fun y hy => hx y (List.mem_cons_of_mem x hy)) p hp
    intro q hq
    rcases saveProduct_mem hq with hq | hq
    · subst hq; exact hx x (List.mem_cons_self x rest)
    · exact hps q hq

/-! ## C8: purchase pack conversion -/

/-- C8: for a pack purchase with units_per_pack above 1, the stock
increment is quantity times units_per_pack and the per-piece cost is the
unit cost divided by units_per_pack; in every other case the quantity and
cost pass through unchanged; in particular 5 packs of 12 at 120 yield 60
pieces at 10 each. -/
theorem c8_pack_conversion :
    (∀ (q uc : Rat) (upp : Nat), 1 < upp →
      convertPurchase UnitType.pack upp q uc = (q * upp, uc / upp)) ∧
    (∀ (u : UnitType) (upp : Nat) (q uc : Rat), u ≠ UnitType.pack ∨ upp ≤ 1 →
      convertPurchase u upp q uc = (q, uc)) ∧
    convertPurchase UnitType.pack 12 5 120 = (60, 10) := by
  refine ⟨?_, ?_, ?_⟩
  · intro q uc upp h
    rw [convertPurchase, if_pos ⟨rfl, by omega, h⟩,
      if_neg (Nat.cast_ne_zero.mpr (by omega))]
  · intro u upp q uc h
    rw [convertPurchase, if_neg]
    rintro ⟨h1, _, h3⟩
    rcases h with h | h
    · exact h h1
    · omega
  · rw [convertPurchase, if_pos ⟨rfl, by omega, by omega⟩,
      if_neg (by norm_num)]
    norm_num

/-- C8 witness: the pack branch evaluated at the inputs of the claim. -/
theorem c8_witness :
    convertPurchase UnitType.pack 12 5 120 =
      ((5 : Rat) * (12 : Nat), (120 : Rat) / (12 : Nat)) ∧
    (5 : Rat) * (12 : Nat) = 60 ∧ (120 : Rat) / (12 : Nat) = 10 := by
  refine ⟨c8_pack_conversion.1 5 120 12 (by omega), by norm_num, by norm_num⟩

/-! ## C9: shift reconciliation -/

/-- C9: expected cash is always opening cash plus the cash-sales total of
the shift, cash difference is undefined exactly while no closing cash is
recorded (as for every shift start_shift opens), closing a shift makes it
closing minus expected, and the concrete instance of the claim: opening
1000 with cash sales 200, 150, 50 gives expected 1400 and closing 1390
gives difference -10. -/
theorem c9_shift_math :
    (∀ (sh : Shift) (sales : List Sale),
      Shift.expected_cash sh sales =
        sh.opening_cash + salesTotal (cashOnly (shiftSales sh.id sales))) ∧
    (∀ (sh : Shift) (sales : List Sale), sh.closing_cash = none →
      Shift.cash_difference sh sales = none) ∧
    (∀ (i u : Nat) (opening : Rat) (sales : List Sale),
      Shift.cash_difference (startShift i u opening) sales = none) ∧
    (∀ (sh : Shift) (c : Rat) (sales : List Sale),
      Shift.cash_difference (endShift sh c) sales =
        some (c - Shift.expected_cash sh sales)) ∧
    Shift.expected_cash c9Shift c9Sales = 1400 ∧
    Shift.cash_difference (endShift c9Shift 1390) c9Sales = some (-10) := by
  have hexp : ∀ (sh : Shift) (sales : List Sale),
      Shift.expected_cash sh sales =
        sh.opening_cash + salesTotal (cashOnly (shiftSales sh.id sales)) := by
    intro sh sales
    simp only [Shift.expected_cash]
    split
    · rename_i h
      rw [h]
      simp [cashOnly, salesTotal]
    · rfl
  have hend : ∀ (sh : Shift) (c : Rat) (sales : List Sale),
      Shift.cash_difference (endShift sh c) sales =
        some (c - Shift.expected_cash sh sales) := by
    intro sh c sales
    rfl
  have hconc : Shift.expected_cash c9Shift c9Sales = 1400 := by
    rw [hexp]
    norm_num [c9Shift, c9Sales, shiftSales, cashOnly, salesTotal]
  refine ⟨hexp, ?_, ?_, hend, hconc, ?_⟩
  · intro sh sales h
    simp only [Shift.cash_difference, h]
  · intro i u opening sales
    rfl
  · rw [hend, hconc]
    norm_num

/-- C9 witness: the always-undefined difference of an open shift, at a
concrete shift with closing_cash unset. -/
theorem c9_witness : Shift.cash_difference c9ShiftB c9Sales = none :=
  c9_shift_math.2.1 c9ShiftB c9Sales rfl

/-! ## Payment endpoint -/

/-- Every createPayment request fails and leaves the state unchanged: the
save forwards a shift keyword the Payment model does not define, so the
view always answers with the generic 500 handler before any write. -/
theorem createPayment_failed (s : State) (req : PaymentRequest) :
    createPayment s req = (PaymentOutcome.failed, s) := by
  simp [createPayment, ite_self]

/-! ## C2: unlinked payment allocation -/

/-- C2 fails on the code: the allocation never runs because every payment
request dies in `serializer.save(shift=...)`; evaluated at the scenario of
the claim the endpoint returns an error and changes nothing.  The
allocation code below the broken save, run on the same scenario with the
payment row it would have produced, does walk the open utang sales oldest
first, settling 50 fully, 20 of 30, leaving the third sale untouched,
creating linked payment rows that reference the originating payment id and
keeping the original row unmodified, as the claim describes. -/
theorem c2_payment_allocation_bug :
    createPayment c2State c2Req = (PaymentOutcome.failed, c2State) ∧
    ((applyPaymentCore c2State c2Pay).sales.map
        (fun sa => (sa.id, sa.amount_paid, sa.is_fully_paid)) =
      [(1, 50, true), (2, 20, false), (3, 0, false)]) ∧
    ((applyPaymentCore c2State c2Pay).payments.map
        (fun p => (p.sale, p.amount, p.notes)) =
      [(none, 70, ""), (some 1, 50, paymentRefNote 10 ""),
       (some 2, 20, paymentRefNote 10 "")]) ∧
    ((applyPaymentCore c2State c2Pay).customers.map
        (fun c => c.outstanding_balance) = [30]) := by
  refine ⟨createPayment_failed c2State c2Req, ?_, ?_, ?_⟩ <;>
    norm_num [applyPaymentCore, applyCustomerBalance, distributePayment,
      c2State, c2Pay, min_def]

/-! ## C6: amount_paid versus total_amount -/

/-- C6 counterexample: a payment of 100 linked to a sale of 50, which the
claim says is accepted with the excess clamped away, is instead rejected
outright — the endpoint fails and records nothing on the sale. -/
theorem c6_overpay_counterexample :
    createPayment c6State c6Req = (PaymentOutcome.failed, c6State) ∧
    ((createPayment c6State c6Req).2.sales.map
        (fun sa => (sa.amount_paid, sa.total_amount)) = [(0, 50)]) := by
  refine ⟨createPayment_failed c6State c6Req, ?_⟩
  rw [createPayment_failed c6State c6Req]
  norm_num [c6State]

/-- C6 amended: every payment request is rejected by the endpoint and
leaves every sale unchanged, so amount_paid ≤ total_amount is preserved
only vacuously; and the sale-linked update logic under the broken save
does not clamp — run on the counterexample scenario it records the full
100 against the sale of 50, pushing amount_paid beyond total_amount. -/
theorem c6_amended_behavior :
    (∀ (s : State) (req : PaymentRequest),
      createPayment s req = (PaymentOutcome.failed, s)) ∧
    ((applyPaymentCore c6State c6Pay).sales.map
        (fun sa => (sa.amount_paid, sa.total_amount, sa.is_fully_paid)) =
      [(100, 50, true)]) ∧
    (∃ sa ∈ (applyPaymentCore c6State c6Pay).sales,
      sa.total_amount < sa.amount_paid) := by
  refine ⟨createPayment_failed, ?_, ?_⟩ <;>
    norm_num [applyPaymentCore, applyCustomerBalance, applyLinkedSale,
      c6State, c6Pay]

/-! ## C7: customer balance clamping -/

/-- C7 fails on the code: a valid payment of 20 against a balance of 50 is
rejected by the endpoint and the balance stays 50, not 30.  The balance
code below the broken save, run with the payment rows the save would have
produced, does decrement by the amount and clamp at zero exactly as the
claim describes: 50 - 20 gives 30, and an overpayment of 80 floors at 0. -/
theorem c7_balance_bug :
    createPayment c7State c7Req = (PaymentOutcome.failed, c7State) ∧
    ((createPayment c7State c7Req).2.customers.map
        (fun c => c.outstanding_balance) = [50]) ∧
    ((applyPaymentCore c7State c7Pay).customers.map
        (fun c => c.outstanding_balance) = [30]) ∧
    ((applyPaymentCore c7State c7PayBig).customers.map
        (fun c => c.outstanding_balance) = [0]) := by
  refine ⟨createPayment_failed c7State c7Req, ?_, ?_, ?_⟩
  · rw [createPayment_failed c7State c7Req]
    norm_num [c7State]
  · norm_num [applyPaymentCore, applyCustomerBalance, distributePayment,
      c7State, c7Pay]
  · norm_num [applyPaymentCore, applyCustomerBalance, distributePayment,
      c7State, c7PayBig]

/-! ## C3: purchase stock applied twice -/

/-- C3 fails on the code: the purchase endpoint applies the stock effect
twice per line — once through the flag-guarded model save and once more in
the view loop — so receiving 5 pieces into a product with 0 stock leaves
10, not 5, while the claim requires exactly one application on every path.
The flag itself does work at the model layer: re-saving a line whose
added_to_stock flag is set, or saving one that is not new, changes
nothing. -/
theorem c3_purchase_double_apply :
    ((createPurchase c3State [⟨4, 5, 7⟩]).2.products.map
        (fun p => (p.stock_quantity, p.cost_price)) = [(10, some 7)]) ∧
    ((createPurchase c3State [⟨4, 5, 7⟩]).2.purchase_items.map
        (fun it => it.added_to_stock) = [true]) ∧
    purchaseItemSave true c3FlaggedItem c3Prod = (c3FlaggedItem, c3Prod) ∧
    purchaseItemSave false c3FlaggedItem c3Prod = (c3FlaggedItem, c3Prod) := by
  refine ⟨?_, ?_, ?_, ?_⟩ <;>
    norm_num [createPurchase, validatePurchaseLines, findProduct,
      runPurchaseLines, purchaseEndpointLine, purchaseItemSave,
      updateProductStock, convertPurchase, saveProduct,
      c3State, c3FlaggedItem, c3Prod]

/-! ## C10: replay short-circuits everything -/

/-- C10: when a sale with the submitted idempotency key exists, createSale
returns it before any validation, shift check or stock check, for every
request carrying that key and every user, and the state is unchanged. -/
theorem c10_replay_short_circuit :
    ∀ (s : State) (k : String) (sa : Sale),
      findSaleByKey s.sales k = some sa →
      ∀ (u : Nat) (req : SaleRequest), req.idempotency_key = some k →
        createSale s u req = (SaleOutcome.replayed sa.id, s) := by
  intro s k sa hf u req hk
  simp only [createSale, hk, hf]

/-- C10 witness: the keyed sale is replayed for a payload that is invalid
in every way (unknown product and customer, no client total, no open
shift), with the state untouched. -/
theorem c10_witness :
    createSale c10State 0 c10Req = (SaleOutcome.replayed 42, c10State) := by
  have h := c10_replay_short_circuit c10State "replay-key" c10Sale
    (by simp [c10State, c10Sale, findSaleByKey]) 0 c10Req rfl
  simpa [c10Sale] using h

/-! ## Stock invariant machinery for C1 -/

/-- Every validated purchase line carries a product row of the table and a
quantity of the request. -/
theorem validatePurchaseLines_spec {ps : List Product} :
    ∀ {lines : List PurchaseLine} {items : List (Product × Rat × Rat)},
      validatePurchaseLines ps lines = some items →
      ∀ x ∈ items, x.1 ∈ ps ∧ ∃ l ∈ lines, x.2.1 = l.quantity := by
  intro lines
  induction lines with
  | nil =>
    intro items h
    simp only [validatePurchaseLines] at h
    cases h
    simp
  | cons line rest ih =>
    intro items h
    simp only [validatePurchaseLines] at h
    cases hf : findProduct ps line.product_id with
    | none => simp only [hf] at h; cases h
    | some p =>
      simp only [hf] at h
      cases hr : validatePurchaseLines ps rest with
      | none => simp only [hr] at h; cases h
      | some tl =>
        simp only [hr] at h
        cases h
        intro x hx
        rcases List.mem_cons.mp hx with hx | hx
        · subst hx
          exact ⟨findProduct_mem hf, line, List.mem_cons_self _ _, rfl⟩
        · obtain ⟨hmem, l, hl, hq⟩ := ih hr x hx
          exact ⟨hmem, l, List.mem_cons_of_mem _ hl, hq⟩

/-- The purchase write loop preserves non-negative stock when the fetched
products and the quantities are non-negative: each written row carries the
fetch-time stock plus twice the line quantity. -/
theorem runPurchaseLines_nonneg :
    ∀ {items : List (Product × Rat × Rat)}
      {acc : List Product × List PurchaseItem},
      (∀ p ∈ acc.1, 0 ≤ p.stock_quantity) →
      (∀ x ∈ items, 0 ≤ x.1.stock_quantity ∧ 0 ≤ x.2.1) →
      ∀ p ∈ (runPurchaseLines acc items).1, 0 ≤ p.stock_quantity := by
  intro items
  induction items with
  | nil =>
    intro acc hacc _ p hp
    simp only [runPurchaseLines] at hp
    exact hacc p hp
  | cons x rest ih =>
    intro acc hacc hx p hp
    simp only [runPurchaseLines] at hp
    refine ih ?_ (fun y hy => hx y (List.mem_cons_of_mem x hy)) p hp
    intro q hq
    simp only [purchaseEndpointLine, purchaseItemSave, updateProductStock,
      convertPurchase] at hq
    norm_num at hq
    rcases saveProduct_mem hq with hq | hq
    · subst hq
      have h1 := (hx x (List.mem_cons_self x rest)).1
      have h2 := (hx x (List.mem_cons_self x rest)).2
      simp only
      positivity
    · exact hacc q hq

/-- createPurchase preserves non-negative stock for request lines with
non-negative quantities. -/
theorem createPurchase_stock (s : State) (lines : List PurchaseLine)
    (h : StockNonneg s) (hq : ∀ l ∈ lines, 0 ≤ l.quantity) :
    StockNonneg (createPurchase s lines).2 := by
  unfold createPurchase
  cases hv : validatePurchaseLines s.products lines with
  | none => exact h
  | some items =>
    intro p hp
    refine @runPurchaseLines_nonneg items (s.products, []) h ?_ p hp
    intro x hx
    obtain ⟨hmem, l, hl, hql⟩ := validatePurchaseLines_spec hv x hx
    exact ⟨h x.1 hmem, hql ▸ hq l hl⟩

/-- createSaleFresh preserves non-negative stock: every accepted line
passed the stock check, so each written row stays non-negative, and every
failure leaves the state unchanged. -/
theorem createSaleFresh_stock (s : State) (u : Nat) (req : SaleRequest)
    (h : StockNonneg s) : StockNonneg (createSaleFresh s u req).2 := by
  unfold createSaleFresh
  split
  · exact h
  · split
    · exact h
    · split
      · exact h
      · rename_i items heq
        split
        · exact h
        · intro p hp
          exact applySaleStock_nonneg h (validateSaleItems_ok_sub heq) p hp

/-- createSale preserves non-negative stock. -/
theorem createSale_stock (s : State) (u : Nat) (req : SaleRequest)
    (h : StockNonneg s) : StockNonneg (createSale s u req).2 := by
  unfold createSale
  split
  · split
    · exact h
    · exact createSaleFresh_stock s u req h
  · exact createSaleFresh_stock s u req h

/-- One request of any kind preserves non-negative stock. -/
theorem applyOp_stock (s : State) (op : Op) (h : StockNonneg s)
    (hv : OpValid op) : StockNonneg (applyOp s op) := by
  cases op with
  | sale u r => exact createSale_stock s u r h
  | purchase ls => exact createPurchase_stock s ls h hv
  | payment r =>
    simp only [applyOp]
    rw [createPayment_failed]
    exact h

/-- A sequence of valid requests preserves non-negative stock. -/
theorem applyOps_stock :
    ∀ (ops : List Op) (s : State), StockNonneg s →
      (∀ op ∈ ops, OpValid op) → StockNonneg (applyOps s ops) := by
  intro ops
  induction ops with
  | nil => intro s h _; exact h
  | cons op rest ih =>
    intro s h hv
    exact ih (applyOp s op)
      (applyOp_stock s op h (hv op (List.mem_cons_self _ _)))
      (fun o ho => hv o (List.mem_cons_of_mem _ ho))

/-- When every line resolves and some line asks for more than its product
has, validation fails with InsufficientStock naming a short product. -/
theorem validateSaleItems_short {ps : List Product} :
    ∀ {lines : List SaleLine},
      (∀ l ∈ lines, ∃ p, findProduct ps l.product_id = some p) →
      (∃ l ∈ lines, ∃ p, findProduct ps l.product_id = some p ∧
        p.stock_quantity < l.quantity) →
      ∃ l ∈ lines, ∃ p, findProduct ps l.product_id = some p ∧
        p.stock_quantity < l.quantity ∧
        validateSaleItems ps lines =
          Except.error (SaleError.insufficientStock p.name) := by
  intro lines
  induction lines with
  | nil =>
    intro _ hshort
    simp at hshort
  | cons line rest ih =>
    intro hex hshort
    obtain ⟨p0, hp0⟩ := hex line (List.mem_cons_self _ _)
    by_cases hlt : p0.stock_quantity < line.quantity
    · refine ⟨line, List.mem_cons_self _ _, p0, hp0, hlt, ?_⟩
      simp only [validateSaleItems, hp0, if_pos hlt]
    · have hshort2 : ∃ l ∈ rest, ∃ p, findProduct ps l.product_id = some p ∧
          p.stock_quantity < l.quantity := by
        rcases hshort with ⟨l, hl, p, hp, hplt⟩
        rcases List.mem_cons.mp hl with rfl | hl2
        · obtain rfl := Option.some.inj (hp0.symm.trans hp)
          exact absurd hplt hlt
        · exact ⟨l, hl2, p, hp, hplt⟩
      obtain ⟨l, hl, p, hp, hplt, herr⟩ :=
        ih (fun l hl => hex l (List.mem_cons_of_mem _ hl)) hshort2
      refine ⟨l, List.mem_cons_of_mem _ hl, p, hp, hplt, ?_⟩
      simp only [validateSaleItems, hp0, if_neg hlt, herr]

/-! ## C1: the stock invariant and insufficient-stock rejection -/

/-- C1: stock stays non-negative over every sequence of sale, purchase and
payment requests (purchase quantities non-negative, as the PurchaseItem
model requires); and a fresh sale request that is otherwise well formed
but asks on some line for more than the product has is rejected whole with
InsufficientStock naming a short product and no state change. -/
theorem c1_stock_invariant :
    (∀ (s : State) (ops : List Op), StockNonneg s →
      (∀ op ∈ ops, OpValid op) → StockNonneg (applyOps s ops)) ∧
    (∀ (s : State) (u : Nat) (req : SaleRequest),
      (∀ k, req.idempotency_key = some k → findSaleByKey s.sales k = none) →
      customerInvalid s.customers req.customer = false →
      req.total_amount.isNone = false →
      (∀ l ∈ req.items, ∃ p, findProduct s.products l.product_id = some p) →
      (∃ l ∈ req.items, ∃ p, findProduct s.products l.product_id = some p ∧
        p.stock_quantity < l.quantity) →
      ∃ l ∈ req.items, ∃ p, findProduct s.products l.product_id = some p ∧
        p.stock_quantity < l.quantity ∧
        createSale s u req =
          (SaleOutcome.failed (SaleError.insufficientStock p.name), s)) := by
  refine ⟨fun s ops h hv => applyOps_stock ops s h hv, ?_⟩
  intro s u req hkey hcust htot hex hshort
  obtain ⟨l, hl, p, hp, hplt, herr⟩ := validateSaleItems_short hex hshort
  have hfresh : createSaleFresh s u req =
      (SaleOutcome.failed (SaleError.insufficientStock p.name), s) := by
    unfold createSaleFresh
    split
    · rename_i hcond
      rw [hcust] at hcond
      cases hcond
    · split
      · rename_i hcond
        rw [htot] at hcond
        cases hcond
      · rw [herr]
  refine ⟨l, hl, p, hp, hplt, ?_⟩
  unfold createSale
  cases hk : req.idempotency_key with
  | none => exact hfresh
  | some k =>
    simp only [hkey k hk]
    exact hfresh

/-- C1 witness: the invariant evaluated over a concrete purchase-then-sale
sequence, and the rejection at a request for 10 units of a product holding
3, which names that product and changes nothing. -/
theorem c1_witness :
    StockNonneg (applyOps c1SeqState c1SeqOps) ∧
    (∃ l ∈ c1RejReq.items, ∃ p,
      findProduct c1RejState.products l.product_id = some p ∧
      p.stock_quantity < l.quantity ∧
      createSale c1RejState 0 c1RejReq =
        (SaleOutcome.failed (SaleError.insufficientStock p.name), c1RejState)) := by
  constructor
  · refine c1_stock_invariant.1 c1SeqState c1SeqOps ?_ ?_
    · intro p hp
      simp only [c1SeqState] at hp
      simp only [List.mem_singleton] at hp
      subst hp
      norm_num
    · intro op hop
      simp only [c1SeqOps, List.mem_cons, List.mem_singleton] at hop
      rcases hop with rfl | rfl | h
      · intro l hl
        simp only [List.mem_singleton] at hl
        subst hl
        norm_num
      · trivial
      · cases h
  · refine c1_stock_invariant.2 c1RejState 0 c1RejReq ?_ ?_ ?_ ?_ ?_
    · intro k hk
      simp [c1RejReq] at hk
    · rfl
    · rfl
    · intro l hl
      simp only [c1RejReq, List.mem_singleton] at hl
      subst hl
      exact ⟨⟨2, "Egg", some 7, none, 3⟩, by norm_num [c1RejState, findProduct]⟩
    · refine ⟨⟨2, 10, 7⟩, by simp [c1RejReq], ⟨2, "Egg", some 7, none, 3⟩, ?_, ?_⟩
      · norm_num [c1RejState, findProduct]
      · norm_num

/-! ## Sale creation inversion for C5 -/

/-- The total of the persisted item rows equals the total of the validated
triples they are built from. -/
theorem saleItemsTotal_map :
    ∀ (items : List (Product × Rat × Rat)),
      saleItemsTotal (items.map
        (fun x => { product_id := x.1.id, quantity := x.2.1, unit_price := x.2.2 })) =
      validatedTotal items := by
  intro items
  induction items with
  | nil => rfl
  | cons x rest ih =>
    simp only [saleItemsTotal, validatedTotal, List.map_cons, List.sum_cons] at ih ⊢
    rw [ih]

/-- Inversion of a successful createSaleFresh: the new state appends
exactly one sale row, whose id is the returned id, whose key is NULL, and
whose stored total is the exact sum over its item rows, equal to the sum
over the request lines. -/
theorem createSaleFresh_created_inv {s : State} {u : Nat} {req : SaleRequest}
    {i : Nat} {s₂ : State}
    (h : createSaleFresh s u req = (SaleOutcome.created i, s₂)) :
    ∃ sale : Sale, s₂.sales = s.sales ++ [sale] ∧ sale.id = i ∧
      sale.idempotency_key = none ∧
      sale.total_amount = saleItemsTotal sale.items ∧
      sale.total_amount = saleLinesTotal req.items ∧
      s₂.sales.length = s.sales.length + 1 := by
  unfold createSaleFresh at h
  split at h
  · simp at h
  · split at h
    · simp at h
    · split at h
      · simp at h
      · rename_i items heq
        split at h
        · simp at h
        · rename_i sh hsh
          simp only [Prod.mk.injEq, SaleOutcome.created.injEq] at h
          obtain ⟨hi, hs⟩ := h
          subst hi
          subst hs
          refine ⟨_, rfl, rfl, rfl, ?_, ?_, by simp⟩
          · exact (saleItemsTotal_map items).symm
          · exact validateSaleItems_ok_total heq

/-! ## C5: server-side total -/

/-- C5: every successfully created sale appends one row whose
total_amount is the exact sum of quantity times unit price over its item
rows, equal to the sum over the request lines; and the client-supplied
total field has no effect on the outcome of createSale at all. -/
theorem c5_total_amount :
    (∀ (s : State) (u : Nat) (req : SaleRequest) (i : Nat) (s₂ : State),
      createSale s u req = (SaleOutcome.created i, s₂) →
      ∃ sale : Sale, s₂.sales = s.sales ++ [sale] ∧ sale.id = i ∧
        sale.total_amount = saleItemsTotal sale.items ∧
        sale.total_amount = saleLinesTotal req.items) ∧
    (∀ (s : State) (u : Nat) (req : SaleRequest) (t₁ t₂ : Rat),
      createSale s u { req with total_amount := some t₁ } =
        createSale s u { req with total_amount := some t₂ }) := by
  constructor
  · intro s u req i s₂ h
    unfold createSale at h
    split at h
    · split at h
      · simp at h
      · obtain ⟨sale, h1, h2, _, h4, h5, _⟩ := createSaleFresh_created_inv h
        exact ⟨sale, h1, h2, h4, h5⟩
    · obtain ⟨sale, h1, h2, _, h4, h5, _⟩ := createSaleFresh_created_inv h
      exact ⟨sale, h1, h2, h4, h5⟩
  · intro s u req t₁ t₂
    cases req with
    | mk key cust pm items tot =>
      cases key with
      | none => rfl
      | some k =>
        unfold createSale
        cases findSaleByKey s.sales k with
        | some e => rfl
        | none => rfl

/-- C5 witness: the request asking for 2 units at 4 with a wrong client
total of 999 stores a sale with total 8, matching both sums. -/
theorem c5_witness :
    ∃ sale : Sale, c5Expected.sales = c5State.sales ++ [sale] ∧ sale.id = 1 ∧
      sale.total_amount = saleItemsTotal sale.items ∧
      sale.total_amount = saleLinesTotal c5Req.items :=
  c5_total_amount.1 c5State 3 c5Req 1 c5Expected (by
    norm_num [createSale, createSaleFresh, customerInvalid, validateSaleItems,
      validatedTotal, findProduct, findOpenShift, applySaleStock, saveProduct,
      c5State, c5Req, c5Expected] <;> simp)

/-! ## C4: idempotency key never persisted -/

/-- C4 fails on the code: the serializer declares idempotency_key
read-only, so the first submission saves the sale with key NULL; the
replay lookup of the second identical submission then finds nothing and a
second sale is created with a new id, decrementing stock again.  Two rows
persist and the calls return different identifiers. -/
theorem c4_idempotency_bug :
    createSale c4State 7 c4Req = (SaleOutcome.created 1, c4Mid) ∧
    createSale c4Mid 7 c4Req = (SaleOutcome.created 2, c4End) ∧
    c4End.sales.length = 2 ∧
    (c4End.sales.map (fun sa => sa.idempotency_key)) = [none, none] ∧
    (c4End.products.map (fun p => p.stock_quantity)) = [8] := by
  refine ⟨?_, ?_, by norm_num [c4End], by norm_num [c4End], by norm_num [c4End]⟩ <;>
    norm_num [createSale, createSaleFresh, customerInvalid, validateSaleItems,
      validatedTotal, findProduct, findOpenShift, findSaleByKey, applySaleStock,
      saveProduct, c4State, c4Mid, c4End, c4Req] <;> simp

end SariPOS
